import Mathlib

/-!
# Verification of the port-claim manager
Shallow embedding of `go-controller/pkg/node/port_claim.go`: the port claim
ledger (`portClaimWatcher`), its `open`/`close` operations, and the
service-event reconciliation driver (`handleService`,
`addServicePortClaim`, `deleteServicePortClaim`, `updateServicePortClaim`).
-/

namespace PortClaim

/-- Kubernetes Service type (`svc.Spec.Type`). -/
inductive ServiceType where
  | ClusterIP
  | NodePort
  | LoadBalancer
  | ExternalName
deriving DecidableEq, Repr

/-- One entry of `svc.Spec.Ports` (`kapi.ServicePort`): name, container port,
node port and protocol. The protocol is the string of `kapi.Protocol`
("TCP", "UDP", "SCTP", or anything else). -/
structure ServicePort where
  Name : String
  Port : Int
  NodePort : Int
  Protocol : String
deriving DecidableEq, Repr

/-- The fields of a `kapi.Service` the port-claim code reads:
`svc.Namespace`, `svc.Name`, `svc.Spec.Type`, `svc.Spec.Ports`,
`svc.Spec.ExternalIPs`. -/
structure Service where
  Namespace : String
  Name : String
  SpecType : ServiceType
  Ports : List ServicePort
  ExternalIPs : List String
deriving DecidableEq, Repr

/-- Model of `utilnet.LocalPort`: the composite map key of the ledger. All call sites
in `port_claim.go` pass `ipFamily = ""`. -/
structure LocalPort where
  description : String
  ip : String
  ipFamily : String
  port : Int
  protocol : String
deriving DecidableEq, Repr

/-- A `utilnet.Closeable`: a held OS socket. `closeErr = none` means its
`Close()` succeeds; `closeErr = some e` means `Close()` returns error `e`.
The `id` distinguishes separately opened sockets. -/
structure Closeable where
  id : Nat
  closeErr : Option String
deriving DecidableEq, Repr

/-- The external collaborators of the ledger, abstracted as functions:
`ipParses s` models whether `utilnet.ParseIPSloppy s` succeeds, and
`openLocalPort` models `portOpener.OpenLocalPort` (the OS bind/listen
primitive), returning either an error or the held socket. -/
structure Env where
  ipParses : String → Bool
  openLocalPort : LocalPort → Except String Closeable

/-- Each distinguishable error return site of `port_claim.go`, one
constructor per `return fmt.Errorf(...)` (resp. propagated error):
`InvalidPort` from `handlePort`s validation, `UnknownProtocol` from the
`default` switch case of `open`, `LocalPortError` from a failing
`utilnet.NewLocalPort`, `DuplicateClaim` from `open` on a present key,
`OSOpenError` from a failing `portOpener.OpenLocalPort`, `OSCloseError`
from a failing `Closeable.Close`, and `UntrackedRelease` from `close` on
an absent key. -/
inductive PortError where
  | InvalidPort (svcName : String)
  | UnknownProtocol (protocol : String)
  | LocalPortError (msg : String)
  | DuplicateClaim
  | OSOpenError (msg : String)
  | OSCloseError (msg : String)
  | UntrackedRelease
deriving DecidableEq, Repr

/-- Go map lookup `portsMap[k]`: first (and, by the unique-key discipline of
Go maps, only) binding of `k`. -/
def mapLookup (m : List (LocalPort × Closeable)) (k : LocalPort) : Option Closeable :=
  match m with
  | [] => none
  | (k2, v) :: rest => if k2 = k then some v else mapLookup rest k

/-- Go `delete(portsMap, k)`: remove every binding of `k`. -/
def mapDelete (m : List (LocalPort × Closeable)) (k : LocalPort) : List (LocalPort × Closeable) :=
  match m with
  | [] => []
  | (k2, v) :: rest => if k2 = k then mapDelete rest k else (k2, v) :: mapDelete rest k

/-- The mutable state of `portClaimWatcher`: the node-local address set
(the key set of `localAddrSet map[string]net.IPNet`) and the ledger
`portsMap map[utilnet.LocalPort]utilnet.Closeable`, modelled as an
association list with unique keys. -/
structure portClaimWatcher where
  localAddrSet : List String
  portsMap : List (LocalPort × Closeable)
deriving DecidableEq, Repr

/-- Model of `utilnet.NewLocalPort(desc, ip, ipFamily, port, protocol)` from
k8s.io/utils/net (the dependency `port_claim.go` calls): rejects protocols
other than TCP/UDP, rejects a bad `ipFamily` string, and rejects a
non-empty `ip` that does not parse; otherwise builds the `LocalPort`
record. (The family/address mismatch check of the original is vacuous at
every call site here because `ipFamily` is always `""`.) -/
def NewLocalPort (env : Env) (desc ip ipFamily : String) (port : Int) (protocol : String) :
    Except String LocalPort :=
  if protocol ≠ "TCP" ∧ protocol ≠ "UDP" then
    Except.error "Unsupported protocol"
  else if ipFamily ≠ "" ∧ ipFamily ≠ "4" ∧ ipFamily ≠ "6" then
    Except.error "Invalid IP family"
  else if ip ≠ "" ∧ env.ipParses ip = false then
    Except.error "invalid ip address"
  else
    Except.ok ⟨desc, ip, ipFamily, port, protocol⟩

/-- Model of `portClaimWatcher.open` (`open` is a Lean keyword, hence `openPort`):
skip non-node-local addresses, build the `LocalPort` for TCP/UDP, succeed
as a no-op for SCTP, fail on unknown protocols; then, for TCP/UDP, fail
with `DuplicateClaim` if the key is already in the ledger, otherwise call
the OS open primitive and on success record the socket. Returns the error
(`none` = Go `nil`) and the resulting state. -/
def portClaimWatcher.openPort (env : Env) (p : portClaimWatcher)
    (desc ip : String) (port : Int) (protocol : String) :
    Option PortError × portClaimWatcher :=
  if ip ≠ "" ∧ ip ∉ p.localAddrSet then
    (none, p)
  else if protocol = "TCP" ∨ protocol = "UDP" then
    match NewLocalPort env desc ip "" port protocol with
    | Except.error e => (some (PortError.LocalPortError e), p)
    | Except.ok localPort =>
      match mapLookup p.portsMap localPort with
      | some _ => (some PortError.DuplicateClaim, p)
      | none =>
        match env.openLocalPort localPort with
        | Except.error e => (some (PortError.OSOpenError e), p)
        | Except.ok closeable =>
            (none, { p with portsMap := p.portsMap ++ [(localPort, closeable)] })
  else if protocol = "SCTP" then
    (none, p)
  else
    (some (PortError.UnknownProtocol protocol), p)

/-- Model of `portClaimWatcher.close`: succeed as a no-op for non-TCP/UDP protocols
and for non-node-local addresses; otherwise build the `LocalPort` and, if
it is in the ledger, call its `Close()` — on close failure return the
error and keep the entry, on success delete the entry; if it is absent,
fail (`port was never opened...?`). -/
def portClaimWatcher.close (env : Env) (p : portClaimWatcher)
    (desc ip : String) (port : Int) (protocol : String) :
    Option PortError × portClaimWatcher :=
  if protocol ≠ "TCP" ∧ protocol ≠ "UDP" then
    (none, p)
  else if ip ≠ "" ∧ ip ∉ p.localAddrSet then
    (none, p)
  else
    match NewLocalPort env desc ip "" port protocol with
    | Except.error e => (some (PortError.LocalPortError e), p)
    | Except.ok localPort =>
      match mapLookup p.portsMap localPort with
      | some closeable =>
        match closeable.closeErr with
        | some e => (some (PortError.OSCloseError e), p)
        | none => (none, { p with portsMap := mapDelete p.portsMap localPort })
      | none => (some PortError.UntrackedRelease, p)

/-- The `handler` function type of `port_claim.go`, with the watcher state
and environment threaded explicitly. -/
abbrev Handler :=
  Env → portClaimWatcher → String → String → Int → String →
    Option PortError × portClaimWatcher

/-- The `portHandler.open` method as a `handler`. -/
def openHandler : Handler :=
  fun env p desc ip port protocol => portClaimWatcher.openPort env p desc ip port protocol

/-- The `portHandler.close` method as a `handler`. -/
def closeHandler : Handler :=
  fun env p desc ip port protocol => portClaimWatcher.close env p desc ip port protocol

/-- Modelled from the spec: `util.ServiceTypeHasNodePort` lives in
`go-controller/pkg/util`, which is not under `src/`. Per the spec a
Service "exposes NodePort" exactly when its type allocates node ports,
i.e. the type is NodePort or LoadBalancer. -/
def ServiceTypeHasNodePort (svc : Service) : Bool :=
  svc.SpecType = ServiceType.NodePort ∨ svc.SpecType = ServiceType.LoadBalancer

/-- Modelled from the spec: `util.ValidatePort` lives in
`go-controller/pkg/util`, which is not under `src/`. Per the spec ("port
(1–65535), protocol (TCP, UDP, or SCTP)"; "Per-claim validation (port
range vs. protocol)") a port is valid when it is in 1..65535 and the
protocol is one of TCP, UDP, SCTP. -/
def ValidatePort (protocol : String) (port : Int) : Bool :=
  1 ≤ port ∧ port ≤ 65535 ∧
    (protocol = "TCP" ∨ protocol = "UDP" ∨ protocol = "SCTP")

/-- Model of `getDescription`: `"nodePort for ns/name[:portName]"` or
`"externalIP for ns/name[:portName]"`, the `:portName` suffix present only
for a non-empty port name. -/
def getDescription (portName : String) (svc : Service) (nodePort : Bool) : String :=
  let svcName := svc.Namespace ++ "/" ++ svc.Name
  let pfx := if nodePort then "nodePort for" else "externalIP for"
  if portName.length = 0 then
    pfx ++ " " ++ svcName
  else
    pfx ++ " " ++ svcName ++ ":" ++ portName

/-- Model of `handlePort`: validate the port (collecting an `InvalidPort` error on
failure) and otherwise run the handler. -/
def handlePort (env : Env) (p : portClaimWatcher) (desc : String) (svc : Service)
    (ip : String) (port : Int) (protocol : String) (handler : Handler) :
    Option PortError × portClaimWatcher :=
  if ValidatePort protocol port = false then
    (some (PortError.InvalidPort svc.Name), p)
  else
    handler env p desc ip port protocol

/-- The inner loop of `handleService` over `svc.Spec.ExternalIPs` for one
`svcPort`: one external-IP claim per address, errors collected in order. -/
def handleExternalIPs (env : Env) (p : portClaimWatcher) (svc : Service)
    (svcPort : ServicePort) (ips : List String) (handler : Handler) :
    List PortError × portClaimWatcher :=
  match ips with
  | [] => ([], p)
  | ip :: rest =>
    let r := handlePort env p (getDescription svcPort.Name svc false) svc
        ip svcPort.Port svcPort.Protocol handler
    let r2 := handleExternalIPs env r.2 svc svcPort rest handler
    ((r.1.toList ++ r2.1), r2.2)

/-- The outer loop of `handleService` over `svc.Spec.Ports`: for each port,
the NodePort claim (when the type exposes node ports) and then one claim
per external IP. -/
def handlePorts (env : Env) (p : portClaimWatcher) (svc : Service)
    (ports : List ServicePort) (handler : Handler) :
    List PortError × portClaimWatcher :=
  match ports with
  | [] => ([], p)
  | svcPort :: rest =>
    let r1 :=
      if ServiceTypeHasNodePort svc then
        let r := handlePort env p (getDescription svcPort.Name svc true) svc
            "" svcPort.NodePort svcPort.Protocol handler
        (r.1.toList, r.2)
      else ([], p)
    let r2 := handleExternalIPs env r1.2 svc svcPort svc.ExternalIPs handler
    let r3 := handlePorts env r2.2 svc rest handler
    (r1.1 ++ r2.1 ++ r3.1, r3.2)

/-- Model of `handleService`: empty result when the type exposes no node ports and
there are no external IPs; otherwise the per-port loop. -/
def handleService (env : Env) (p : portClaimWatcher) (svc : Service) (handler : Handler) :
    List PortError × portClaimWatcher :=
  if ServiceTypeHasNodePort svc = false ∧ svc.ExternalIPs.length = 0 then
    ([], p)
  else
    handlePorts env p svc svc.Ports handler

/-- Model of `addServicePortClaim`: `handleService` with the `open` handler. -/
def addServicePortClaim (env : Env) (p : portClaimWatcher) (svc : Service) :
    List PortError × portClaimWatcher :=
  handleService env p svc openHandler

/-- Model of `deleteServicePortClaim`: `handleService` with the `close` handler. -/
def deleteServicePortClaim (env : Env) (p : portClaimWatcher) (svc : Service) :
    List PortError × portClaimWatcher :=
  handleService env p svc closeHandler

/-- Model of `updateServicePortClaim`: fast no-op when `ExternalIPs` and `Ports` are
deeply equal; otherwise a full delete of the old spec followed by a full
add of the new, errors concatenated. -/
def updateServicePortClaim (env : Env) (p : portClaimWatcher)
    (oldSvc newSvc : Service) : List PortError × portClaimWatcher :=
  if oldSvc.ExternalIPs = newSvc.ExternalIPs ∧ oldSvc.Ports = newSvc.Ports then
    ([], p)
  else
    let d := deleteServicePortClaim env p oldSvc
    let a := addServicePortClaim env d.2 newSvc
    (d.1 ++ a.1, a.2)

/-! ## Helper lemmas about the association-list map -/

theorem mapLookup_append (m1 m2 : List (LocalPort × Closeable)) (k : LocalPort) :
    mapLookup (m1 ++ m2) k =
      match mapLookup m1 k with
      | some v => some v
      | none => mapLookup m2 k := by
  induction m1 with
  | nil => simp [mapLookup]
  | cons e rest ih =>
    obtain ⟨k2, v⟩ := e
    by_cases h : k2 = k
    · simp [mapLookup, h]
    · simp [mapLookup, h, ih]

theorem mapLookup_single_eq (k : LocalPort) (v : Closeable) :
    mapLookup [(k, v)] k = some v := by
  simp [mapLookup]

theorem mapLookup_single_ne (k k2 : LocalPort) (v : Closeable) (h : k2 ≠ k) :
    mapLookup [(k2, v)] k = none := by
  simp [mapLookup, h]

theorem mapDelete_append (m1 m2 : List (LocalPort × Closeable)) (k : LocalPort) :
    mapDelete (m1 ++ m2) k = mapDelete m1 k ++ mapDelete m2 k := by
  induction m1 with
  | nil => simp [mapDelete]
  | cons e rest ih =>
    obtain ⟨k2, v⟩ := e
    by_cases h : k2 = k
    · simp [mapDelete, h, ih]
    · simp [mapDelete, h, ih]

theorem mapDelete_of_lookup_none (m : List (LocalPort × Closeable)) (k : LocalPort)
    (h : mapLookup m k = none) : mapDelete m k = m := by
  induction m with
  | nil => simp [mapDelete]
  | cons e rest ih =>
    obtain ⟨k2, v⟩ := e
    by_cases hk : k2 = k
    · simp [mapLookup, hk] at h
    · simp [mapLookup, hk] at h
      simp [mapDelete, hk, ih h]

theorem mapLookup_mapDelete_self (m : List (LocalPort × Closeable)) (k : LocalPort) :
    mapLookup (mapDelete m k) k = none := by
  induction m with
  | nil => simp [mapDelete, mapLookup]
  | cons e rest ih =>
    obtain ⟨k2, v⟩ := e
    by_cases hk : k2 = k
    · simp [mapDelete, hk, ih]
    · simp [mapDelete, mapLookup, hk, ih]

/-- The hypothesis under which `open`/`close` reach the ledger for a claim:
the address is empty, or is node-local and parseable. -/
def addrOk (env : Env) (p : portClaimWatcher) (ip : String) : Prop :=
  ip = "" ∨ (ip ∈ p.localAddrSet ∧ env.ipParses ip = true)

instance (env : Env) (p : portClaimWatcher) (ip : String) : Decidable (addrOk env p ip) := by
  unfold addrOk; infer_instance

/-- On the TCP/UDP, address-ok path, `open` reduces to the ledger
lookup/insert step of the source. -/
theorem openPort_eq (env : Env) (p : portClaimWatcher)
    (desc ip : String) (port : Int) (protocol : String)
    (hproto : protocol = "TCP" ∨ protocol = "UDP")
    (hip : addrOk env p ip) :
    portClaimWatcher.openPort env p desc ip port protocol =
      match mapLookup p.portsMap ⟨desc, ip, "", port, protocol⟩ with
      | some _ => (some PortError.DuplicateClaim, p)
      | none =>
        match env.openLocalPort ⟨desc, ip, "", port, protocol⟩ with
        | Except.error e => (some (PortError.OSOpenError e), p)
        | Except.ok closeable =>
            (none,
              { p with portsMap := p.portsMap ++ [(⟨desc, ip, "", port, protocol⟩, closeable)] }) := by
  have hp : ¬ (protocol ≠ "TCP" ∧ protocol ≠ "UDP") := by
    rcases hproto with h | h <;> simp [h]
  have hp2 : protocol = "TCP" ∨ protocol = "UDP" := hproto
  rcases hip with h | ⟨hmem, hparse⟩
  · simp [portClaimWatcher.openPort, NewLocalPort, h, hp, hp2]
  · by_cases he : ip = ""
    · simp [portClaimWatcher.openPort, NewLocalPort, he, hp, hp2]
    · simp [portClaimWatcher.openPort, NewLocalPort, he, hmem, hparse, hp, hp2]

/-- On the TCP/UDP, address-ok path, `close` reduces to the ledger
lookup/delete step of the source. -/
theorem close_eq (env : Env) (p : portClaimWatcher)
    (desc ip : String) (port : Int) (protocol : String)
    (hproto : protocol = "TCP" ∨ protocol = "UDP")
    (hip : addrOk env p ip) :
    portClaimWatcher.close env p desc ip port protocol =
      match mapLookup p.portsMap ⟨desc, ip, "", port, protocol⟩ with
      | some closeable =>
        match closeable.closeErr with
        | some e => (some (PortError.OSCloseError e), p)
        | none =>
            (none, { p with portsMap := mapDelete p.portsMap ⟨desc, ip, "", port, protocol⟩ })
      | none => (some PortError.UntrackedRelease, p) := by
  have hp : ¬ (protocol ≠ "TCP" ∧ protocol ≠ "UDP") := by
    rcases hproto with h | h <;> simp [h]
  rcases hip with h | ⟨hmem, hparse⟩
  · simp [portClaimWatcher.close, NewLocalPort, h, hp]
  · by_cases he : ip = ""
    · simp [portClaimWatcher.close, NewLocalPort, he, hp]
    · simp [portClaimWatcher.close, NewLocalPort, he, hmem, hparse, hp]

/-! ## Concrete fixtures used by the witnesses -/

/-- An environment whose OS open primitive always succeeds (socket id = the
port) and where every address string parses. -/
def envT : Env := ⟨fun _ => true, fun lp => Except.ok ⟨lp.port.toNat, none⟩⟩

/-- The ledger key of the example claim `nodePort for ns1/svcA`, port 30080,
TCP, all interfaces. -/
def lpT : LocalPort := ⟨"nodePort for ns1/svcA", "", "", 30080, "TCP"⟩

/-- The held socket of the example claim. -/
def cT : Closeable := ⟨30080, none⟩

/-- A watcher already holding the example claim. -/
def pHeld : portClaimWatcher := ⟨["10.0.0.1"], [(lpT, cT)]⟩

/-- A watcher with an empty ledger. -/
def pEmptyW : portClaimWatcher := ⟨["10.0.0.1"], []⟩

/-- A NodePort service with a single port. -/
def svcOld : Service := ⟨"ns1", "svcA", ServiceType.NodePort, [⟨"", 8080, 30080, "TCP"⟩], []⟩

/-- Variant of `svcOld` with a different node port. -/
def svcNew : Service := ⟨"ns1", "svcA", ServiceType.NodePort, [⟨"", 8080, 30081, "TCP"⟩], []⟩

/-- A service with the same Ports and ExternalIPs as `svcOld` but another
name. -/
def svcSamePorts : Service :=
  ⟨"ns1", "svcB", ServiceType.NodePort, [⟨"", 8080, 30080, "TCP"⟩], []⟩

/-! ## Claim theorems -/

/-- C1: `open` on a claim whose identity (description, address, port,
protocol) is already in the ledger fails with `DuplicateClaim` and returns
the watcher unchanged: the existing reservation is untouched, no entry is
replaced or removed, and no new OS socket is recorded (the OS open
primitive is never consulted on this path). -/
theorem open_on_present_identity_duplicate
    (env : Env) (p : portClaimWatcher) (desc ip : String) (port : Int) (protocol : String)
    (c : Closeable)
    (hproto : protocol = "TCP" ∨ protocol = "UDP")
    (hip : addrOk env p ip)
    (hdup : mapLookup p.portsMap ⟨desc, ip, "", port, protocol⟩ = some c) :
    portClaimWatcher.openPort env p desc ip port protocol =
      (some PortError.DuplicateClaim, p) := by
  rw [openPort_eq env p desc ip port protocol hproto hip, hdup]

/-- Witness for C1 at the concrete claim `nodePort for ns1/svcA`/30080/TCP
already held in `pHeld`. -/
theorem open_on_present_identity_duplicate_witness :
    ("TCP" = "TCP" ∨ ("TCP" : String) = "UDP") ∧ addrOk envT pHeld "" ∧
    mapLookup pHeld.portsMap ⟨"nodePort for ns1/svcA", "", "", 30080, "TCP"⟩ = some cT ∧
    portClaimWatcher.openPort envT pHeld "nodePort for ns1/svcA" "" 30080 "TCP" =
      (some PortError.DuplicateClaim, pHeld) :=
  ⟨Or.inl rfl, Or.inl rfl, rfl,
    open_on_present_identity_duplicate envT pHeld "nodePort for ns1/svcA" "" 30080 "TCP" cT
      (Or.inl rfl) (Or.inl rfl) rfl⟩

/-- C2: when the old and new specs differ in `Ports` or `ExternalIPs`, the
update handler equals a full delete of the old spec followed by a full add
of the new on the resulting state, with the error lists concatenated. -/
theorem update_differing_specs_delete_then_add
    (env : Env) (p : portClaimWatcher) (oldSvc newSvc : Service)
    (hdiff : ¬ (oldSvc.ExternalIPs = newSvc.ExternalIPs ∧ oldSvc.Ports = newSvc.Ports)) :
    updateServicePortClaim env p oldSvc newSvc =
      ((deleteServicePortClaim env p oldSvc).1 ++
         (addServicePortClaim env (deleteServicePortClaim env p oldSvc).2 newSvc).1,
       (addServicePortClaim env (deleteServicePortClaim env p oldSvc).2 newSvc).2) := by
  simp [updateServicePortClaim, hdiff]

/-- Witness for C2 at two specs differing in the node port. -/
theorem update_differing_specs_delete_then_add_witness :
    ¬ (svcOld.ExternalIPs = svcNew.ExternalIPs ∧ svcOld.Ports = svcNew.Ports) ∧
    updateServicePortClaim envT pEmptyW svcOld svcNew =
      ((deleteServicePortClaim envT pEmptyW svcOld).1 ++
         (addServicePortClaim envT (deleteServicePortClaim envT pEmptyW svcOld).2 svcNew).1,
       (addServicePortClaim envT (deleteServicePortClaim envT pEmptyW svcOld).2 svcNew).2) :=
  ⟨by decide, update_differing_specs_delete_then_add envT pEmptyW svcOld svcNew (by decide)⟩

/-- C5: for an SCTP claim, `open` and `close` both succeed and leave the
watcher exactly as it was, for every port value, description and address:
no ledger entry is created, removed or modified. -/
theorem sctp_open_close_noop (env : Env) (p : portClaimWatcher)
    (desc ip : String) (port : Int) :
    portClaimWatcher.openPort env p desc ip port "SCTP" = (none, p) ∧
    portClaimWatcher.close env p desc ip port "SCTP" = (none, p) := by
  constructor
  · by_cases h : ip ≠ "" ∧ ip ∉ p.localAddrSet
    · simp [portClaimWatcher.openPort, h]
    · simp [portClaimWatcher.openPort, h]
  · simp [portClaimWatcher.close]

/-- C7: `close` of a TCP/UDP claim whose address is empty or node-local and
whose identity is absent from the ledger fails with `UntrackedRelease` and
returns the watcher unchanged (no OS close is attempted, no entry
touched). -/
theorem close_untracked_release
    (env : Env) (p : portClaimWatcher) (desc ip : String) (port : Int) (protocol : String)
    (hproto : protocol = "TCP" ∨ protocol = "UDP")
    (hip : addrOk env p ip)
    (habs : mapLookup p.portsMap ⟨desc, ip, "", port, protocol⟩ = none) :
    portClaimWatcher.close env p desc ip port protocol =
      (some PortError.UntrackedRelease, p) := by
  rw [close_eq env p desc ip port protocol hproto hip, habs]

/-- Witness for C7 at a concrete absent claim on the empty ledger. -/
theorem close_untracked_release_witness :
    ("TCP" = "TCP" ∨ ("TCP" : String) = "UDP") ∧ addrOk envT pEmptyW "" ∧
    mapLookup pEmptyW.portsMap ⟨"nodePort for ns1/svcA", "", "", 30080, "TCP"⟩ = none ∧
    portClaimWatcher.close envT pEmptyW "nodePort for ns1/svcA" "" 30080 "TCP" =
      (some PortError.UntrackedRelease, pEmptyW) :=
  ⟨Or.inl rfl, Or.inl rfl, rfl,
    close_untracked_release envT pEmptyW "nodePort for ns1/svcA" "" 30080 "TCP"
      (Or.inl rfl) (Or.inl rfl) rfl⟩

/-- C8: when `Ports` and `ExternalIPs` are (order-sensitively) equal
between the old and new specs, the update handler returns no errors and
the watcher unchanged: zero ledger operations happen. -/
theorem update_equal_specs_noop
    (env : Env) (p : portClaimWatcher) (oldSvc newSvc : Service)
    (hports : oldSvc.Ports = newSvc.Ports)
    (hips : oldSvc.ExternalIPs = newSvc.ExternalIPs) :
    updateServicePortClaim env p oldSvc newSvc = ([], p) := by
  simp [updateServicePortClaim, hports, hips]

/-- Witness for C8 at two specs with equal Ports/ExternalIPs (differing in
name). -/
theorem update_equal_specs_noop_witness :
    svcOld.Ports = svcSamePorts.Ports ∧ svcOld.ExternalIPs = svcSamePorts.ExternalIPs ∧
    updateServicePortClaim envT pHeld svcOld svcSamePorts = ([], pHeld) :=
  ⟨rfl, rfl, update_equal_specs_noop envT pHeld svcOld svcSamePorts rfl rfl⟩

/-- C3: for a tracked TCP/UDP claim, when the held socket's `Close()`
fails, `close` returns the `OSCloseError` (ReleaseFailure) and the watcher
unchanged — the ledger entry is retained; when `Close()` succeeds, `close`
succeeds and removes exactly that entry (the identity no longer resolves
in the resulting ledger). -/
theorem close_release_failure_retains_entry
    (env : Env) (p : portClaimWatcher) (desc ip : String) (port : Int) (protocol : String)
    (c : Closeable)
    (hproto : protocol = "TCP" ∨ protocol = "UDP")
    (hip : addrOk env p ip)
    (hmem : mapLookup p.portsMap ⟨desc, ip, "", port, protocol⟩ = some c) :
    (∀ e, c.closeErr = some e →
       portClaimWatcher.close env p desc ip port protocol =
         (some (PortError.OSCloseError e), p)) ∧
    (c.closeErr = none →
       portClaimWatcher.close env p desc ip port protocol =
         (none, { p with portsMap := mapDelete p.portsMap ⟨desc, ip, "", port, protocol⟩ }) ∧
       mapLookup (mapDelete p.portsMap ⟨desc, ip, "", port, protocol⟩)
         ⟨desc, ip, "", port, protocol⟩ = none) := by
  have hcl := close_eq env p desc ip port protocol hproto hip
  simp only [hmem] at hcl
  refine ⟨fun e he => ?_, fun hnone => ⟨?_, mapLookup_mapDelete_self _ _⟩⟩
  · simp only [he] at hcl
    exact hcl
  · simp only [hnone] at hcl
    exact hcl

/-- A socket whose `Close()` fails with "device busy". -/
def cBad : Closeable := ⟨5, some "device busy"⟩

/-- A watcher holding the example claim with the failing socket. -/
def pHeldBad : portClaimWatcher := ⟨["10.0.0.1"], [(lpT, cBad)]⟩

/-- Witness for C3: both halves at concrete inputs — a failing close on
`pHeldBad` retains the state, a succeeding close on `pHeld` removes the
entry. -/
theorem close_release_failure_retains_entry_witness :
    addrOk envT pHeldBad "" ∧
    mapLookup pHeldBad.portsMap ⟨"nodePort for ns1/svcA", "", "", 30080, "TCP"⟩ = some cBad ∧
    cBad.closeErr = some "device busy" ∧
    portClaimWatcher.close envT pHeldBad "nodePort for ns1/svcA" "" 30080 "TCP" =
      (some (PortError.OSCloseError "device busy"), pHeldBad) ∧
    cT.closeErr = none ∧
    portClaimWatcher.close envT pHeld "nodePort for ns1/svcA" "" 30080 "TCP" =
      (none, { pHeld with
        portsMap := mapDelete pHeld.portsMap ⟨"nodePort for ns1/svcA", "", "", 30080, "TCP"⟩ }) :=
  ⟨Or.inl rfl, rfl, rfl,
    (close_release_failure_retains_entry envT pHeldBad "nodePort for ns1/svcA" "" 30080 "TCP"
        cBad (Or.inl rfl) (Or.inl rfl) rfl).1 "device busy" rfl,
    rfl,
    ((close_release_failure_retains_entry envT pHeld "nodePort for ns1/svcA" "" 30080 "TCP"
        cT (Or.inl rfl) (Or.inl rfl) rfl).2 rfl).1⟩

/-- C4: two claims sharing (address, port, protocol) but with different
descriptions are distinct ledger identities: after a successful open of
the first, opening the second is not rejected as a duplicate — with a
succeeding OS open it succeeds — and the resulting ledger resolves both
identities to their separate sockets. -/
theorem distinct_descriptions_distinct_entries
    (env : Env) (p : portClaimWatcher) (desc1 desc2 ip : String) (port : Int) (protocol : String)
    (c1 c2 : Closeable)
    (hdesc : desc1 ≠ desc2)
    (hproto : protocol = "TCP" ∨ protocol = "UDP")
    (hip : addrOk env p ip)
    (h1 : mapLookup p.portsMap ⟨desc1, ip, "", port, protocol⟩ = none)
    (h2 : mapLookup p.portsMap ⟨desc2, ip, "", port, protocol⟩ = none)
    (ho1 : env.openLocalPort ⟨desc1, ip, "", port, protocol⟩ = Except.ok c1)
    (ho2 : env.openLocalPort ⟨desc2, ip, "", port, protocol⟩ = Except.ok c2) :
    (portClaimWatcher.openPort env p desc1 ip port protocol).1 = none ∧
    (portClaimWatcher.openPort env
        (portClaimWatcher.openPort env p desc1 ip port protocol).2 desc2 ip port protocol).1
      = none ∧
    mapLookup (portClaimWatcher.openPort env
        (portClaimWatcher.openPort env p desc1 ip port protocol).2
        desc2 ip port protocol).2.portsMap ⟨desc1, ip, "", port, protocol⟩ = some c1 ∧
    mapLookup (portClaimWatcher.openPort env
        (portClaimWatcher.openPort env p desc1 ip port protocol).2
        desc2 ip port protocol).2.portsMap ⟨desc2, ip, "", port, protocol⟩ = some c2 := by
  have hkey : (⟨desc1, ip, "", port, protocol⟩ : LocalPort) ≠ ⟨desc2, ip, "", port, protocol⟩ := by
    simp [hdesc]
  have e1 := openPort_eq env p desc1 ip port protocol hproto hip
  simp only [h1, ho1] at e1
  have h2' : mapLookup (p.portsMap ++ [(⟨desc1, ip, "", port, protocol⟩, c1)])
      ⟨desc2, ip, "", port, protocol⟩ = none := by
    simp only [mapLookup_append, h2, mapLookup_single_ne _ _ _ hkey]
  have e2 := openPort_eq env
    { p with portsMap := p.portsMap ++ [(⟨desc1, ip, "", port, protocol⟩, c1)] }
    desc2 ip port protocol hproto hip
  simp only [h2', ho2] at e2
  refine ⟨?_, ?_, ?_, ?_⟩ <;> simp only [e1, e2]
  · simp only [mapLookup_append, h1, mapLookup_single_eq]
  · simp only [mapLookup_append, h2, mapLookup_single_ne _ _ _ hkey, mapLookup_single_eq]

/-- Witness for C4: a `nodePort for` and an `externalIP for` description
over the same (all-interfaces, 30080, TCP) socket identity. -/
theorem distinct_descriptions_distinct_entries_witness :
    ("nodePort for ns1/svcA" : String) ≠ "externalIP for ns1/svcA" ∧
    mapLookup pEmptyW.portsMap ⟨"nodePort for ns1/svcA", "", "", 30080, "TCP"⟩ = none ∧
    mapLookup pEmptyW.portsMap ⟨"externalIP for ns1/svcA", "", "", 30080, "TCP"⟩ = none ∧
    (portClaimWatcher.openPort envT pEmptyW "nodePort for ns1/svcA" "" 30080 "TCP").1 = none ∧
    (portClaimWatcher.openPort envT
        (portClaimWatcher.openPort envT pEmptyW "nodePort for ns1/svcA" "" 30080 "TCP").2
        "externalIP for ns1/svcA" "" 30080 "TCP").1 = none ∧
    mapLookup (portClaimWatcher.openPort envT
        (portClaimWatcher.openPort envT pEmptyW "nodePort for ns1/svcA" "" 30080 "TCP").2
        "externalIP for ns1/svcA" "" 30080 "TCP").2.portsMap
      ⟨"nodePort for ns1/svcA", "", "", 30080, "TCP"⟩ = some ⟨30080, none⟩ ∧
    mapLookup (portClaimWatcher.openPort envT
        (portClaimWatcher.openPort envT pEmptyW "nodePort for ns1/svcA" "" 30080 "TCP").2
        "externalIP for ns1/svcA" "" 30080 "TCP").2.portsMap
      ⟨"externalIP for ns1/svcA", "", "", 30080, "TCP"⟩ = some ⟨30080, none⟩ := by
  have h := distinct_descriptions_distinct_entries envT pEmptyW
    "nodePort for ns1/svcA" "externalIP for ns1/svcA" "" 30080 "TCP"
    ⟨30080, none⟩ ⟨30080, none⟩ (by decide) (Or.inl rfl) (Or.inl rfl) rfl rfl rfl rfl
  exact ⟨by decide, rfl, rfl, h.1, h.2.1, h.2.2.1, h.2.2.2⟩

/-- C6: for a TCP/UDP claim (empty or node-local address) not yet in the
ledger, when the OS open succeeds and the resulting socket's close
succeeds, `open` then `close` both succeed, `open` records the entry, and
`close` returns the watcher to exactly its prior state. -/
theorem open_close_round_trip
    (env : Env) (p : portClaimWatcher) (desc ip : String) (port : Int) (protocol : String)
    (c : Closeable)
    (hproto : protocol = "TCP" ∨ protocol = "UDP")
    (hip : addrOk env p ip)
    (habs : mapLookup p.portsMap ⟨desc, ip, "", port, protocol⟩ = none)
    (ho : env.openLocalPort ⟨desc, ip, "", port, protocol⟩ = Except.ok c)
    (hc : c.closeErr = none) :
    (portClaimWatcher.openPort env p desc ip port protocol).1 = none ∧
    mapLookup (portClaimWatcher.openPort env p desc ip port protocol).2.portsMap
      ⟨desc, ip, "", port, protocol⟩ = some c ∧
    portClaimWatcher.close env (portClaimWatcher.openPort env p desc ip port protocol).2
      desc ip port protocol = (none, p) := by
  have e1 := openPort_eq env p desc ip port protocol hproto hip
  simp only [habs, ho] at e1
  have hl : mapLookup (p.portsMap ++ [(⟨desc, ip, "", port, protocol⟩, c)])
      ⟨desc, ip, "", port, protocol⟩ = some c := by
    simp only [mapLookup_append, habs, mapLookup_single_eq]
  have e3 := close_eq env { p with portsMap := p.portsMap ++ [(⟨desc, ip, "", port, protocol⟩, c)] }
    desc ip port protocol hproto hip
  simp only [hl, hc] at e3
  have hd : mapDelete (p.portsMap ++ [(⟨desc, ip, "", port, protocol⟩, c)])
      ⟨desc, ip, "", port, protocol⟩ = p.portsMap := by
    rw [mapDelete_append, mapDelete_of_lookup_none p.portsMap _ habs]
    simp [mapDelete]
  rw [hd] at e3
  refine ⟨?_, ?_, ?_⟩ <;> simp only [e1]
  · exact hl
  · rw [e3]

/-- Witness for C6 at the concrete example claim on the empty ledger. -/
theorem open_close_round_trip_witness :
    ("TCP" = "TCP" ∨ ("TCP" : String) = "UDP") ∧ addrOk envT pEmptyW "" ∧
    mapLookup pEmptyW.portsMap ⟨"nodePort for ns1/svcA", "", "", 30080, "TCP"⟩ = none ∧
    envT.openLocalPort ⟨"nodePort for ns1/svcA", "", "", 30080, "TCP"⟩ =
      Except.ok ⟨30080, none⟩ ∧
    (portClaimWatcher.openPort envT pEmptyW "nodePort for ns1/svcA" "" 30080 "TCP").1 = none ∧
    mapLookup (portClaimWatcher.openPort envT pEmptyW
        "nodePort for ns1/svcA" "" 30080 "TCP").2.portsMap
      ⟨"nodePort for ns1/svcA", "", "", 30080, "TCP"⟩ = some ⟨30080, none⟩ ∧
    portClaimWatcher.close envT
      (portClaimWatcher.openPort envT pEmptyW "nodePort for ns1/svcA" "" 30080 "TCP").2
      "nodePort for ns1/svcA" "" 30080 "TCP" = (none, pEmptyW) := by
  have h := open_close_round_trip envT pEmptyW "nodePort for ns1/svcA" "" 30080 "TCP"
    ⟨30080, none⟩ (Or.inl rfl) (Or.inl rfl) rfl rfl rfl
  exact ⟨Or.inl rfl, Or.inl rfl, rfl, rfl, h.1, h.2.1, h.2.2⟩

/-- Variant of `svcOld` with its type changed to ClusterIP: `Ports` and `ExternalIPs`
are untouched (the `nodePort` number is still present in `Ports`), but the
type no longer exposes node ports, so the derived claim set is empty. -/
def svc9New : Service := ⟨"ns1", "svcA", ServiceType.ClusterIP, [⟨"", 8080, 30080, "TCP"⟩], []⟩

/-- C9: a concrete update whose old and new specs have equal `Ports` and
equal `ExternalIPs` but differ in the service type: the old NodePort-type
spec derives (and, from an empty ledger, opens) the node-port claim, the
new ClusterIP-type spec derives no claims at all, yet the update handler
takes the fast path and performs zero ledger operations — so the
reservation derived from the old spec stays held in the ledger although
the new spec no longer requires it. -/
theorem update_equal_fields_stale_reservation :
    svcOld.Ports = svc9New.Ports ∧
    svcOld.ExternalIPs = svc9New.ExternalIPs ∧
    addServicePortClaim envT pEmptyW svcOld = ([], pHeld) ∧
    addServicePortClaim envT pEmptyW svc9New = ([], pEmptyW) ∧
    updateServicePortClaim envT pHeld svcOld svc9New = ([], pHeld) ∧
    mapLookup pHeld.portsMap lpT = some cT := by
  decide

/-- The sequential execution of a batch of `open` calls, one per claim key
(its description, ip, port and protocol): the linearization that the
single `activeSocketsLock` imposes on any set of concurrent `open`
calls — quantifying over the list covers every interleaving order. -/
def openAll (env : Env) (p : portClaimWatcher) (cs : List LocalPort) : portClaimWatcher :=
  match cs with
  | [] => p
  | c :: rest =>
      openAll env (portClaimWatcher.openPort env p c.description c.ip c.port c.protocol).2 rest

/-- The ledger entries a batch of opens produces: one entry per claim whose
OS open succeeds, holding the socket the OS returned. -/
def succEntries (env : Env) (cs : List LocalPort) : List (LocalPort × Closeable) :=
  match cs with
  | [] => []
  | c :: rest =>
    match env.openLocalPort c with
    | Except.ok cl => (c, cl) :: succEntries env rest
    | Except.error _ => succEntries env rest

theorem countP_eq_zero_of_lookup_none (m : List (LocalPort × Closeable)) (k : LocalPort)
    (h : mapLookup m k = none) :
    List.countP (fun e => decide (e.1 = k)) m = 0 := by
  induction m with
  | nil => simp
  | cons e rest ih =>
    obtain ⟨k2, v⟩ := e
    by_cases hk : k2 = k
    · simp [mapLookup, hk] at h
    · simp [mapLookup, hk] at h
      simp [List.countP_cons, hk, ih h]

theorem succEntries_countP_zero (env : Env) (cs : List LocalPort) (k : LocalPort)
    (h : ∀ c ∈ cs, c ≠ k) :
    List.countP (fun e => decide (e.1 = k)) (succEntries env cs) = 0 := by
  induction cs with
  | nil => simp [succEntries]
  | cons c rest ih =>
    have hc : c ≠ k := h c (List.mem_cons_self c rest)
    have hrest := ih fun c2 hc2 => h c2 (List.mem_cons_of_mem c hc2)
    cases hos : env.openLocalPort c with
    | ok cl => simp [succEntries, hos, List.countP_cons, hc, hrest]
    | error e => simp [succEntries, hos, hrest]

theorem succEntries_countP_mem (env : Env) (cs : List LocalPort) (k : LocalPort)
    (hdist : cs.Pairwise (fun a b => a ≠ b)) (hmem : k ∈ cs) :
    List.countP (fun e => decide (e.1 = k)) (succEntries env cs) =
      match env.openLocalPort k with
      | Except.ok _ => 1
      | Except.error _ => 0 := by
  induction cs with
  | nil => simp at hmem
  | cons c rest ih =>
    rcases List.mem_cons.mp hmem with hk | hk
    · subst hk
      have hz := succEntries_countP_zero env rest k
        (fun c2 hc2 => ((List.pairwise_cons.mp hdist).1 c2 hc2).symm)
      cases hos : env.openLocalPort k with
      | ok cl => simp [succEntries, hos, List.countP_cons, hz]
      | error e => simp [succEntries, hos, hz]
    · have hne : c ≠ k := (List.pairwise_cons.mp hdist).1 k hk
      have hrest := ih (List.pairwise_cons.mp hdist).2 hk
      cases hos : env.openLocalPort c with
      | ok cl => simp [succEntries, hos, List.countP_cons, hne, hrest]
      | error e => simp [succEntries, hos, hrest]

/-- C10: the single lock of the watcher linearizes concurrent `open`
calls, so a set of concurrent opens executes as some sequential order of
the calls; for every such order of pairwise-distinct claim identities
(TCP/UDP, empty or node-local parseable addresses, identities absent from
the starting ledger), the batch leaves the local address set untouched and
extends the ledger by exactly the entries of the OS-successful claims —
in particular the final ledger holds exactly one entry per distinct claim
identity whose OS open succeeded, and none for the others. -/
theorem concurrent_opens_linearized
    (env : Env) (p : portClaimWatcher) (cs : List LocalPort)
    (hgood : ∀ c ∈ cs, c.ipFamily = "" ∧ (c.protocol = "TCP" ∨ c.protocol = "UDP") ∧
        (c.ip = "" ∨ (c.ip ∈ p.localAddrSet ∧ env.ipParses c.ip = true)))
    (hdist : cs.Pairwise (fun a b => a ≠ b))
    (habs : ∀ c ∈ cs, mapLookup p.portsMap c = none) :
    (openAll env p cs).localAddrSet = p.localAddrSet ∧
    (openAll env p cs).portsMap = p.portsMap ++ succEntries env cs ∧
    (∀ c ∈ cs, List.countP (fun e => decide (e.1 = c)) (openAll env p cs).portsMap =
      match env.openLocalPort c with
      | Except.ok _ => 1
      | Except.error _ => 0) := by
  have main : (openAll env p cs).localAddrSet = p.localAddrSet ∧
      (openAll env p cs).portsMap = p.portsMap ++ succEntries env cs := by
    induction cs generalizing p with
    | nil => simp [openAll, succEntries]
    | cons c rest ih =>
      obtain ⟨hfam, hproto, hip⟩ := hgood c (List.mem_cons_self c rest)
      have heta : (⟨c.description, c.ip, "", c.port, c.protocol⟩ : LocalPort) = c := by
        cases c
        simp_all
      have e1 := openPort_eq env p c.description c.ip c.port c.protocol hproto hip
      rw [heta] at e1
      cases hos : env.openLocalPort c with
      | error e =>
        simp only [habs c (List.mem_cons_self c rest), hos] at e1
        have hres := ih p (fun c2 hc2 => hgood c2 (List.mem_cons_of_mem c hc2))
          (List.pairwise_cons.mp hdist).2
          (fun c2 hc2 => habs c2 (List.mem_cons_of_mem c hc2))
        simp only [openAll, succEntries, e1, hos]
        exact hres
      | ok cl =>
        simp only [habs c (List.mem_cons_self c rest), hos] at e1
        have habs' : ∀ c2 ∈ rest,
            mapLookup (p.portsMap ++ [(c, cl)]) c2 = none := by
          intro c2 hc2
          have hne : c ≠ c2 := (List.pairwise_cons.mp hdist).1 c2 hc2
          simp only [mapLookup_append, habs c2 (List.mem_cons_of_mem c hc2),
            mapLookup_single_ne _ _ _ hne]
        have hres := ih { p with portsMap := p.portsMap ++ [(c, cl)] }
          (fun c2 hc2 => hgood c2 (List.mem_cons_of_mem c hc2))
          (List.pairwise_cons.mp hdist).2 habs'
        simp only [openAll, succEntries, e1, hos]
        refine ⟨hres.1, ?_⟩
        rw [hres.2]
        simp
  refine ⟨main.1, main.2, fun c hc => ?_⟩
  rw [main.2, List.countP_append,
    countP_eq_zero_of_lookup_none p.portsMap c (habs c hc),
    succEntries_countP_mem env cs c hdist hc]
  simp

/-- A second claim identity for the C10 witness. -/
def lpU : LocalPort := ⟨"nodePort for ns1/svcB", "", "", 30081, "TCP"⟩

/-- Witness for C10: a batch of two distinct node-port claims opened on the
empty ledger. -/
theorem concurrent_opens_linearized_witness :
    (∀ c ∈ [lpT, lpU], c.ipFamily = "" ∧ (c.protocol = "TCP" ∨ c.protocol = "UDP") ∧
        (c.ip = "" ∨ (c.ip ∈ pEmptyW.localAddrSet ∧ envT.ipParses c.ip = true))) ∧
    ([lpT, lpU] : List LocalPort).Pairwise (fun a b => a ≠ b) ∧
    (∀ c ∈ [lpT, lpU], mapLookup pEmptyW.portsMap c = none) ∧
    ((openAll envT pEmptyW [lpT, lpU]).localAddrSet = pEmptyW.localAddrSet ∧
     (openAll envT pEmptyW [lpT, lpU]).portsMap =
       pEmptyW.portsMap ++ succEntries envT [lpT, lpU] ∧
     (∀ c ∈ [lpT, lpU],
       List.countP (fun e => decide (e.1 = c)) (openAll envT pEmptyW [lpT, lpU]).portsMap =
         match envT.openLocalPort c with
         | Except.ok _ => 1
         | Except.error _ => 0)) :=
  ⟨by decide, by decide, by decide,
    concurrent_opens_linearized envT pEmptyW [lpT, lpU] (by decide) (by decide) (by decide)⟩

end PortClaim
